import Mathlib

/-!
Shallow embedding of the interview-orchestration engine
(src/agents/interview_agent.py, src/utils/conversation_manager.py,
src/utils/report_generator.py).

Modelling conventions:
- Python dictionaries produced by json.loads are modelled by `PyVal`.
- Python machine floats are modelled as exact rationals; the scores and
  thresholds used by the code are small decimals for which this is exact.
- The external OpenAI chat-completion call together with the extraction of
  the message text is modelled as a single oracle outcome `GenOutcome`:
  either the generated text or a raised exception.  Prompt construction,
  which only feeds that external call and cannot affect any returned value,
  is not reproduced.
- Python exceptions are modelled by `PyExc`; a function that can raise has
  result type `Except PyExc _`, and a try/except block is `pyTry`.
- `json.loads` is modelled by `jsonLoads`, a strict JSON parser (objects,
  arrays, strings with escapes, numbers, true/false/null); the nonstandard
  NaN/Infinity extensions of the Python module are not modelled, and none
  of the strings handled here use them.
-/

/-- Model of a Python/JSON value as produced by json.loads. -/
inductive PyVal where
  | pyNone
  | pyBool (b : Bool)
  | pyInt (n : Int)
  | pyFloat (q : ℚ)
  | pyStr (s : String)
  | pyList (xs : List PyVal)
  | pyDict (fields : List (String × PyVal))

/-- Model of the Python exception kinds the code distinguishes in its
except clauses. -/
inductive PyExc where
  | jsonDecodeError
  | valueError
  | typeError
  | attributeError
  | other (msg : String)
deriving DecidableEq

/-- Outcome of one call to the external generation service: the returned
message text, or a raised exception message. -/
inductive GenOutcome where
  | ok (content : String)
  | exc (msg : String)

/-- `str(e)` on a modelled exception (used only to build error notes). -/
def pyExcStr : PyExc → String
  | .jsonDecodeError => "JSONDecodeError"
  | .valueError => "ValueError"
  | .typeError => "TypeError"
  | .attributeError => "AttributeError"
  | .other m => m

/-- A try/except-Exception block: run the body, on any exception run the
handler. -/
def pyTry (body : Except PyExc α) (handler : PyExc → Except PyExc α) : Except PyExc α :=
  match body with
  | .ok a => .ok a
  | .error e => handler e

/-- The service call inside a try block: the text on success, a raised
exception otherwise. -/
def genCall : GenOutcome → Except PyExc String
  | .ok c => .ok c
  | .exc m => .error (.other m)

/-- dict.get: first binding of the key, if any (keys are unique by
construction). -/
def dictGet (d : List (String × PyVal)) (k : String) : Option PyVal :=
  (d.find? (fun p => p.1 == k)).map (·.2)

/-- dict item assignment: update the value in place if the key exists,
otherwise append the binding at the end (Python insertion order). -/
def dictSet : List (String × PyVal) → String → PyVal → List (String × PyVal)
  | [], k, v => [(k, v)]
  | (k0, v0) :: rest, k, v =>
    if k0 == k then (k0, v) :: rest else (k0, v0) :: dictSet rest k v

/-- Whether a value is a JSON object (a Python dict). -/
def PyVal.isObj : PyVal → Bool
  | .pyDict _ => true
  | _ => false

/-! ### JSON parsing (model of json.loads) -/

/-- JSON whitespace characters. -/
def isJsonWs (c : Char) : Bool :=
  c = ' ' || c = '\t' || c = '\n' || c = '\r'

def skipWs (cs : List Char) : List Char := cs.dropWhile isJsonWs

def isDigitCh (c : Char) : Bool := '0' ≤ c && c ≤ '9'

def digitVal (c : Char) : Nat := c.toNat - '0'.toNat

def digitsToNat (ds : List Char) : Nat :=
  ds.foldl (fun a c => a * 10 + digitVal c) 0

def isHexCh (c : Char) : Bool :=
  isDigitCh c || ('a' ≤ c && c ≤ 'f') || ('A' ≤ c && c ≤ 'F')

def hexVal (c : Char) : Nat :=
  if isDigitCh c then digitVal c
  else if 'a' ≤ c && c ≤ 'f' then c.toNat - 'a'.toNat + 10
  else c.toNat - 'A'.toNat + 10

/-- Match a literal run of characters, returning the remainder. -/
def stripRun : List Char → List Char → Option (List Char)
  | [], cs => some cs
  | _ :: _, [] => none
  | p :: ps, c :: cs => if c = p then stripRun ps cs else none

/-- Parse the body of a JSON string (the opening quote already consumed),
with string escapes. -/
def parseStrAux : Nat → List Char → List Char → Except Unit (String × List Char)
  | 0, _, _ => .error ()
  | _ + 1, _, [] => .error ()
  | fuel + 1, acc, c :: rest =>
    if c = '"' then .ok (String.mk acc.reverse, rest)
    else if c = '\\' then
      match rest with
      | '"' :: r => parseStrAux fuel ('"' :: acc) r
      | '\\' :: r => parseStrAux fuel ('\\' :: acc) r
      | '/' :: r => parseStrAux fuel ('/' :: acc) r
      | 'b' :: r => parseStrAux fuel ('\x08' :: acc) r
      | 'f' :: r => parseStrAux fuel ('\x0c' :: acc) r
      | 'n' :: r => parseStrAux fuel ('\n' :: acc) r
      | 'r' :: r => parseStrAux fuel ('\x0d' :: acc) r
      | 't' :: r => parseStrAux fuel ('\t' :: acc) r
      | 'u' :: h1 :: h2 :: h3 :: h4 :: r =>
        if isHexCh h1 && isHexCh h2 && isHexCh h3 && isHexCh h4 then
          parseStrAux fuel
            (Char.ofNat (((hexVal h1 * 16 + hexVal h2) * 16 + hexVal h3) * 16 + hexVal h4) :: acc) r
        else .error ()
      | _ => .error ()
    else if c.toNat < 32 then .error ()
    else parseStrAux fuel (c :: acc) rest

/-- Parse a JSON number (strict grammar: optional minus, no leading zeros,
optional fraction and exponent); an integer literal yields pyInt, anything
with a fraction or exponent yields pyFloat. -/
def parseNumber (cs : List Char) : Except Unit (PyVal × List Char) :=
  let (neg, cs1) :=
    match cs with
    | '-' :: r => (true, r)
    | _ => (false, cs)
  let intDs := cs1.takeWhile isDigitCh
  let rest1 := cs1.dropWhile isDigitCh
  if intDs.isEmpty then .error ()
  else if intDs.length > 1 && intDs.head? = some '0' then .error ()
  else
    let (fracDs, rest2, okFrac) :=
      match rest1 with
      | '.' :: r =>
        let ds := r.takeWhile isDigitCh
        (ds, r.dropWhile isDigitCh, !ds.isEmpty)
      | _ => ([], rest1, true)
    if !okFrac then .error ()
    else
      let (expNeg, expDs, rest3, okExp) :=
        match rest2 with
        | 'e' :: r | 'E' :: r =>
          match r with
          | '+' :: r2 =>
            let ds := r2.takeWhile isDigitCh
            (false, ds, r2.dropWhile isDigitCh, !ds.isEmpty)
          | '-' :: r2 =>
            let ds := r2.takeWhile isDigitCh
            (true, ds, r2.dropWhile isDigitCh, !ds.isEmpty)
          | _ =>
            let ds := r.takeWhile isDigitCh
            (false, ds, r.dropWhile isDigitCh, !ds.isEmpty)
        | _ => (false, [], rest2, true)
      if !okExp then .error ()
      else
        let isIntLit := fracDs.isEmpty && expDs.isEmpty
        if isIntLit then
          let n : Int := Int.ofNat (digitsToNat intDs)
          .ok (.pyInt (if neg then -n else n), rest1)
        else
          let mant : ℚ :=
            (digitsToNat intDs : ℚ) + (digitsToNat fracDs : ℚ) / (10 : ℚ) ^ fracDs.length
          let e := digitsToNat expDs
          let mag : ℚ := if expNeg then mant / (10 : ℚ) ^ e else mant * (10 : ℚ) ^ e
          .ok (.pyFloat (if neg then -mag else mag), rest3)

mutual

/-- Parse one JSON value (leading whitespace allowed). -/
def parseValue : Nat → List Char → Except Unit (PyVal × List Char)
  | 0, _ => .error ()
  | fuel + 1, cs =>
    match skipWs cs with
    | [] => .error ()
    | c :: rest =>
      if c = '\x7b' then parseObjBody fuel rest
      else if c = '[' then parseArrBody fuel rest
      else if c = '"' then
        match parseStrAux (fuel + 1) [] rest with
        | .ok (s, r) => .ok (.pyStr s, r)
        | .error _ => .error ()
      else if c = 't' then
        match stripRun ['r', 'u', 'e'] rest with
        | some r => .ok (.pyBool true, r)
        | none => .error ()
      else if c = 'f' then
        match stripRun ['a', 'l', 's', 'e'] rest with
        | some r => .ok (.pyBool false, r)
        | none => .error ()
      else if c = 'n' then
        match stripRun ['u', 'l', 'l'] rest with
        | some r => .ok (.pyNone, r)
        | none => .error ()
      else if c = '-' || isDigitCh c then parseNumber (c :: rest)
      else .error ()

/-- Parse an object body, the opening brace already consumed. -/
def parseObjBody : Nat → List Char → Except Unit (PyVal × List Char)
  | 0, _ => .error ()
  | fuel + 1, cs =>
    match skipWs cs with
    | '\x7d' :: rest => .ok (.pyDict [], rest)
    | '"' :: rest => parseMember fuel rest []
    | _ => .error ()

/-- Parse one key/value member, the opening quote of the key already
consumed, then continue the object. -/
def parseMember : Nat → List Char → List (String × PyVal) → Except Unit (PyVal × List Char)
  | 0, _, _ => .error ()
  | fuel + 1, cs, acc =>
    match parseStrAux (fuel + 1) [] cs with
    | .error _ => .error ()
    | .ok (k, r1) =>
      match skipWs r1 with
      | ':' :: r2 =>
        match parseValue fuel r2 with
        | .error _ => .error ()
        | .ok (v, r3) => parseObjRest fuel r3 (dictSet acc k v)
      | _ => .error ()

/-- After a member: a comma and another member, or the closing brace. -/
def parseObjRest : Nat → List Char → List (String × PyVal) → Except Unit (PyVal × List Char)
  | 0, _, _ => .error ()
  | fuel + 1, cs, acc =>
    match skipWs cs with
    | ',' :: rest =>
      match skipWs rest with
      | '"' :: r => parseMember fuel r acc
      | _ => .error ()
    | '\x7d' :: rest => .ok (.pyDict acc, rest)
    | _ => .error ()

/-- Parse an array body, the opening bracket already consumed. -/
def parseArrBody : Nat → List Char → Except Unit (PyVal × List Char)
  | 0, _ => .error ()
  | fuel + 1, cs =>
    match skipWs cs with
    | ']' :: rest => .ok (.pyList [], rest)
    | _ =>
      match parseValue fuel cs with
      | .error _ => .error ()
      | .ok (v, r) => parseArrRest fuel r [v]

/-- After an element: a comma and another element, or the closing
bracket. -/
def parseArrRest : Nat → List Char → List PyVal → Except Unit (PyVal × List Char)
  | 0, _, _ => .error ()
  | fuel + 1, cs, acc =>
    match skipWs cs with
    | ',' :: rest =>
      match parseValue fuel rest with
      | .error _ => .error ()
      | .ok (v, r) => parseArrRest fuel r (v :: acc)
    | ']' :: rest => .ok (.pyList acc.reverse, rest)
    | _ => .error ()

end

/-- Model of json.loads: parse exactly one JSON document, allowing
surrounding whitespace; error on anything else. -/
def jsonLoads (s : String) : Except Unit PyVal :=
  match parseValue (4 * s.length + 16) s.toList with
  | .ok (v, rest) => if (skipWs rest).isEmpty then .ok v else .error ()
  | .error _ => .error ()

/-! ### JSON serialization (model of json.dumps) -/

/-- Escape one character for a JSON string literal (the strings the code
serializes contain no characters that need more than these cases). -/
def jsonEscapeChar (c : Char) : String :=
  if c = '"' then "\\\""
  else if c = '\\' then "\\\\"
  else if c = '\n' then "\\n"
  else if c = '\t' then "\\t"
  else if c = '\x0d' then "\\r"
  else String.mk [c]

def jsonDumpStr (s : String) : String :=
  "\"" ++ String.join (s.toList.map jsonEscapeChar) ++ "\""

mutual

/-- Model of json.dumps with the default separators. The code applies it
only to dicts of ints and plain strings; the float case is never exercised
by it. -/
def jsonDumps : PyVal → String
  | .pyNone => "null"
  | .pyBool true => "true"
  | .pyBool false => "false"
  | .pyInt n => toString n
  | .pyFloat q => toString q
  | .pyStr s => jsonDumpStr s
  | .pyList xs => "[" ++ jsonDumpsList xs ++ "]"
  | .pyDict d => "\x7b" ++ jsonDumpsMembers d ++ "\x7d"

def jsonDumpsList : List PyVal → String
  | [] => ""
  | [x] => jsonDumps x
  | x :: y :: rest => jsonDumps x ++ ", " ++ jsonDumpsList (y :: rest)

def jsonDumpsMembers : List (String × PyVal) → String
  | [] => ""
  | [(k, v)] => jsonDumpStr k ++ ": " ++ jsonDumps v
  | (k, v) :: m :: rest => jsonDumpStr k ++ ": " ++ jsonDumps v ++ ", " ++ jsonDumpsMembers (m :: rest)

end

/-! ### Python string and number helpers -/

/-- Python str.strip(): drop whitespace from both ends (implemented over
the character list so that it reduces definitionally). -/
def pyStrip (s : String) : String :=
  String.mk (((s.toList.dropWhile Char.isWhitespace).reverse.dropWhile Char.isWhitespace).reverse)

/-- Python str.find for a single character: first index or -1. -/
def pyFind (s : String) (c : Char) : Int :=
  match s.toList.findIdx? (· == c) with
  | some i => i
  | none => -1

/-- Python str.rfind for a single character: last index or -1. -/
def pyRfind (s : String) (c : Char) : Int :=
  match s.toList.reverse.findIdx? (· == c) with
  | some i => (s.length : Int) - 1 - i
  | none => -1

/-- Python slicing s[a:b] (negative indices count from the end, out of
range indices are clamped). -/
def pySlice (s : String) (a b : Int) : String :=
  let n := s.length
  let clamp (i : Int) : Nat := if i < 0 then (max 0 (n + i)).toNat else min i.toNat n
  String.mk (((s.toList).drop (clamp a)).take (clamp b - clamp a))

/-- Python len(s.split()): number of whitespace-separated words. -/
def pyWordCount (s : String) : Nat :=
  ((s.split (fun c => c.isWhitespace)).filter (fun t => t ≠ "")).length

/-- Model of Python float(str) on plain decimal notation: optional sign,
digits with optional fraction and exponent, surrounding whitespace.  The
inf/nan spellings and underscore separators accepted by Python are not
modelled; the strings this development feeds it are plain decimals or
unconvertible words. -/
def pyParseFloat (s : String) : Option ℚ :=
  let cs := (pyStrip s).toList
  let (neg, cs1) :=
    match cs with
    | '-' :: r => (true, r)
    | '+' :: r => (false, r)
    | _ => (false, cs)
  let intDs := cs1.takeWhile isDigitCh
  let rest1 := cs1.dropWhile isDigitCh
  let (fracDs, rest2) :=
    match rest1 with
    | '.' :: r => (r.takeWhile isDigitCh, r.dropWhile isDigitCh)
    | _ => ([], rest1)
  if intDs.isEmpty && fracDs.isEmpty then none
  else
    let (expNeg, expDs, rest3, hasExpPart) :=
      match rest2 with
      | 'e' :: r | 'E' :: r =>
        match r with
        | '+' :: r2 => (false, r2.takeWhile isDigitCh, r2.dropWhile isDigitCh, true)
        | '-' :: r2 => (true, r2.takeWhile isDigitCh, r2.dropWhile isDigitCh, true)
        | _ => (false, r.takeWhile isDigitCh, r.dropWhile isDigitCh, true)
      | _ => (false, [], rest2, false)
    if hasExpPart && expDs.isEmpty then none
    else if !rest3.isEmpty then none
    else
      let mant : ℚ :=
        (digitsToNat intDs : ℚ) + (digitsToNat fracDs : ℚ) / (10 : ℚ) ^ fracDs.length
      let e := digitsToNat expDs
      let mag : ℚ := if expNeg then mant / (10 : ℚ) ^ e else mant * (10 : ℚ) ^ e
      some (if neg then -mag else mag)

/-- Round to the nearest integer, ties to even (the rounding Python round
uses; Python floats are modelled as exact rationals). -/
def roundHalfEven (q : ℚ) : ℤ :=
  let n := Int.floor q
  let frac := q - n
  if frac < 1 / 2 then n
  else if 1 / 2 < frac then n + 1
  else if n % 2 = 0 then n else n + 1

/-- Model of Python round(x, 1). -/
def round1 (q : ℚ) : ℚ := (roundHalfEven (q * 10) : ℚ) / 10

/-! ### InterviewAgent (src/agents/interview_agent.py) -/

/-- The job configuration dict built by the UI; title, level, type and
description are accessed with mandatory lookups, duration and
candidate_name with .get and a default. -/
structure JobConfig where
  title : String
  level : String
  type : String
  duration : Option String
  description : String
  candidate_name : Option String

/-- InterviewAgent._get_max_questions: the duration map with default 10. -/
def get_max_questions (cfg : JobConfig) : Nat :=
  let key := cfg.duration.getD "Standard (8-12 questions)"
  if key = "Quick (5-8 questions)" then 8
  else if key = "Standard (8-12 questions)" then 12
  else if key = "Comprehensive (12-15 questions)" then 15
  else 10

/-- The fixed fallback evaluation dict returned when the service response
parses as nothing (json.dumps applied to it in the source). -/
def fallbackEvalParse : PyVal :=
  .pyDict
    [("score", .pyInt 6),
     ("feedback", .pyStr "Thank you for your response. I\x27d like to explore this topic further."),
     ("strengths", .pyStr "Good communication"),
     ("areas_to_probe", .pyStr "Technical depth")]

/-- The fixed fallback evaluation dict returned when the service call
raises. -/
def fallbackEvalExc : PyVal :=
  .pyDict
    [("score", .pyInt 5),
     ("feedback", .pyStr "I appreciate your response. Let\x27s continue with the next question."),
     ("strengths", .pyStr "Engagement with the question"),
     ("areas_to_probe", .pyStr "More detailed examples")]

def fallbackEvalParseStr : String := jsonDumps fallbackEvalParse

def fallbackEvalExcStr : String := jsonDumps fallbackEvalExc

/-- The fixed ordered fallback questions of _generate_next_question. -/
def fallbackQuestions : List String :=
  ["Can you describe a challenging technical problem you\x27ve solved and walk me through your approach?",
   "How do you stay updated with the latest developments in your field?",
   "Tell me about a time when you had to work with a difficult team member. How did you handle it?",
   "What interests you most about this role and our company?",
   "Do you have any questions about the position or our team?"]

/-- One recorded item of the agent's interview_context. -/
structure CtxEntry where
  question : String
  response : String
  evaluation : String

/-- The mutable fields of InterviewAgent. -/
structure AgentState where
  job_config : JobConfig
  question_count : Nat
  current_question : String
  interview_context : List CtxEntry
  max_questions : Nat

/-- InterviewAgent._generate_first_question: the opening-question prompt
is sent to the service; on any exception the fixed greeting built from the
job title is returned. -/
def generate_first_question (cfg : JobConfig) (o : GenOutcome) : Except PyExc String :=
  pyTry
    (do
      let content ← genCall o
      .ok (pyStrip content))
    (fun _ =>
      .ok ("Hello! I\x27m excited to interview you for the " ++ cfg.title ++
        " position. Can you start by telling me about your relevant experience and what interests you about this role?"))

/-- InterviewAgent._evaluate_response: the rubric prompt (built from the
job config, the current question and the response, feeding only the
external call) is sent to the service; the returned text is kept verbatim
when json.loads accepts it, replaced by the parse fallback when it does
not, and the exception fallback is returned when the call raises. -/
def evaluate_response (st : AgentState) (response : String) (o : GenOutcome) : Except PyExc String :=
  pyTry
    (do
      let content ← genCall o
      let eval_text := pyStrip content
      match jsonLoads eval_text with
      | .ok _ => .ok eval_text
      | .error _ => .ok fallbackEvalParseStr)
    (fun _ => .ok fallbackEvalExcStr)

/-- InterviewAgent._generate_next_question: the adaptive prompt (built
from the evaluation, the recent context window and the job config, feeding
only the external call) is sent to the service; on any exception the
fallback question at index min(question_count, len - 1) is returned. -/
def generate_next_question (st : AgentState) (candidate_response evaluation : String)
    (o : GenOutcome) : Except PyExc String :=
  pyTry
    (do
      let content ← genCall o
      .ok (pyStrip content))
    (fun _ =>
      .ok (fallbackQuestions.getD (min st.question_count (fallbackQuestions.length - 1)) ""))

/-- The dict returned by InterviewAgent.process_response. -/
structure AgentResp where
  question : String
  evaluation : String
  is_final : Bool
  question_number : Nat
deriving DecidableEq

/-- InterviewAgent.process_response: evaluate the response, append the
exchange to the context, generate the next question, advance the counter,
and report is_final once the counter reaches max_questions. -/
def process_response (st : AgentState) (candidate_response : String)
    (oEval oNext : GenOutcome) : Except PyExc (AgentState × AgentResp) := do
  let evaluation ← evaluate_response st candidate_response oEval
  let ctx := st.interview_context ++
    [{ question := st.current_question, response := candidate_response, evaluation := evaluation }]
  let stMid := { st with interview_context := ctx }
  let next ← generate_next_question stMid candidate_response evaluation oNext
  let qc := st.question_count + 1
  let stNew := { stMid with current_question := next, question_count := qc }
  .ok (stNew,
    { question := next, evaluation := evaluation,
      is_final := decide (st.max_questions ≤ qc), question_number := qc + 1 })

/-- InterviewAgent.__init__: zero exchanges, max questions from the
duration map, opening question generated immediately. -/
def initAgent (cfg : JobConfig) (oFirst : GenOutcome) : Except PyExc AgentState := do
  let q ← generate_first_question cfg oFirst
  .ok { job_config := cfg, question_count := 0, current_question := q,
        interview_context := [], max_questions := get_max_questions cfg }

/-- Drive process_response over a list of calls (candidate text plus the
two oracle outcomes of that turn), collecting each returned dict. -/
def runAgent (st : AgentState) : List (String × GenOutcome × GenOutcome) → Except PyExc (List AgentResp)
  | [] => .ok []
  | (r, o1, o2) :: calls => do
    let (st2, resp) ← process_response st r o1 o2
    let rest ← runAgent st2 calls
    .ok (resp :: rest)

/-! ### ConversationManager (src/utils/conversation_manager.py) -/

/-- One recorded exchange of the conversation history. -/
structure Exchange where
  timestamp : String
  candidate : String
  interviewer : String
  evaluation : String
  question_number : Nat
  score : ℚ
deriving DecidableEq

/-- The mutable fields of ConversationManager (the start time is kept
outside the model; durations take the elapsed seconds as a parameter). -/
structure ConvState where
  conversation_history : List Exchange
  evaluation_scores : List ℚ
  candidate_responses : List String
  interviewer_questions : List String
deriving DecidableEq

/-- The freshly initialized ConversationManager. -/
def initConv : ConvState :=
  { conversation_history := [], evaluation_scores := [],
    candidate_responses := [], interviewer_questions := [] }

/-- float(x) on a Python value: ints, floats and bools convert, strings
convert when they spell a number (ValueError otherwise), lists and dicts
raise TypeError. -/
def pyFloatConv : PyVal → Except PyExc ℚ
  | .pyInt n => .ok n
  | .pyFloat q => .ok q
  | .pyBool b => .ok (if b then 1 else 0)
  | .pyStr s =>
    match pyParseFloat s with
    | some q => .ok q
    | none => .error .valueError
  | .pyNone => .error .typeError
  | .pyList _ => .error .typeError
  | .pyDict _ => .error .typeError

/-- ConversationManager._extract_score: json.loads the evaluation text and
convert its score field to float, with except (JSONDecodeError, ValueError,
TypeError) returning 0.0.  A text that parses to a non-object value makes
the .get attribute lookup raise an AttributeError, which that except clause
does not cover. -/
def extract_score (evaluation_json : String) : Except PyExc ℚ :=
  match jsonLoads evaluation_json with
  | .error _ => .ok 0
  | .ok (.pyDict d) =>
    let score := (dictGet d "score").getD (.pyInt 0)
    match score with
    | .pyNone => .ok 0
    | v =>
      match pyFloatConv v with
      | .ok q => .ok q
      | .error _ => .ok 0
  | .ok _ => .error .attributeError

/-- ConversationManager.add_exchange: build the exchange record, append it
to the history and the tracking lists, and store the extracted score (the
extractor only ever returns a float, so the None guard always passes). -/
def add_exchange (st : ConvState) (candidate_input : String) (resp : AgentResp)
    (timestamp : String) : Except PyExc ConvState := do
  let sc ← extract_score resp.evaluation
  let ex : Exchange :=
    { timestamp := timestamp, candidate := candidate_input,
      interviewer := resp.question, evaluation := resp.evaluation,
      question_number := st.conversation_history.length + 1, score := sc }
  let sc2 ← extract_score resp.evaluation
  .ok { conversation_history := st.conversation_history ++ [ex],
        evaluation_scores := st.evaluation_scores ++ [sc2],
        candidate_responses := st.candidate_responses ++ [candidate_input],
        interviewer_questions := st.interviewer_questions ++ [resp.question] }

/-- ConversationManager.get_average_score: mean of the stored scores
rounded to one decimal, 0.0 with no scores. -/
def get_average_score (st : ConvState) : ℚ :=
  if st.evaluation_scores.isEmpty then 0
  else round1 (st.evaluation_scores.sum / st.evaluation_scores.length)

/-- ConversationManager._calculate_score_trend: compare the means of the
two halves (integer division puts the middle element of an odd count in
the second half) against a 0.5 margin. -/
def calculate_score_trend (scores : List ℚ) : String :=
  if scores.length < 2 then "stable"
  else
    let first_half := scores.take (scores.length / 2)
    let second_half := scores.drop (scores.length / 2)
    if first_half.isEmpty || second_half.isEmpty then "stable"
    else
      let first_avg := first_half.sum / first_half.length
      let second_avg := second_half.sum / second_half.length
      if second_avg > first_avg + 1 / 2 then "improving"
      else if second_avg < first_avg - 1 / 2 then "declining"
      else "stable"

/-- ConversationManager._format_duration. -/
def format_duration (totalSeconds : Nat) : String :=
  if totalSeconds < 60 then toString totalSeconds ++ " sec"
  else if totalSeconds < 3600 then toString (totalSeconds / 60) ++ " min"
  else toString (totalSeconds / 3600) ++ "h " ++ toString (totalSeconds % 3600 / 60) ++ "m"

/-- The dict returned by ConversationManager.get_stats. -/
structure ConvStats where
  total_exchanges : Nat
  duration : String
  duration_minutes : Nat
  average_score : ℚ
  highest_score : ℚ
  lowest_score : ℚ
  score_trend : String

/-- ConversationManager.get_stats. -/
def get_stats (st : ConvState) (elapsedSeconds : Nat) : ConvStats :=
  { total_exchanges := st.conversation_history.length,
    duration := format_duration elapsedSeconds,
    duration_minutes := elapsedSeconds / 60,
    average_score := get_average_score st,
    highest_score := (st.evaluation_scores.max?).getD 0,
    lowest_score := (st.evaluation_scores.min?).getD 0,
    score_trend := calculate_score_trend st.evaluation_scores }

/-- The statistics block of ConversationManager.export_conversation. -/
structure ExportStats where
  total_questions : Nat
  average_score : ℚ
  highest_score : ℚ
  lowest_score : ℚ
  score_trend : String
  total_candidate_words : Nat
  average_response_length : Nat

/-- The dict returned by ConversationManager.export_conversation. -/
structure ConvData where
  conversation_history : List Exchange
  statistics : ExportStats
  scores_timeline : List ℚ

/-- ConversationManager.export_conversation. -/
def export_conversation (st : ConvState) (elapsedSeconds : Nat) : ConvData :=
  let stats := get_stats st elapsedSeconds
  let words := (st.candidate_responses.map pyWordCount).sum
  { conversation_history := st.conversation_history,
    statistics :=
      { total_questions := st.conversation_history.length,
        average_score := stats.average_score,
        highest_score := stats.highest_score,
        lowest_score := stats.lowest_score,
        score_trend := stats.score_trend,
        total_candidate_words := words,
        average_response_length :=
          if st.candidate_responses.isEmpty then 0
          else words / st.candidate_responses.length },
    scores_timeline := st.evaluation_scores }

/-! ### ReportGenerator (src/utils/report_generator.py) -/

/-- ReportGenerator._create_basic_report: the fixed structure returned
when the generated report text holds no parsable JSON object. -/
def create_basic_report : PyVal :=
  .pyDict
    [("executive_summary", .pyStr "Interview completed successfully with standard evaluation."),
     ("overall_score", .pyInt 6),
     ("strengths", .pyList [.pyStr "Communication skills", .pyStr "Technical engagement"]),
     ("areas_for_improvement", .pyList [.pyStr "More specific examples needed", .pyStr "Technical depth"]),
     ("technical_assessment", .pyDict
       [("technical_knowledge", .pyInt 6), ("problem_solving", .pyInt 6),
        ("technical_communication", .pyInt 6)]),
     ("soft_skills_assessment", .pyDict
       [("communication", .pyInt 6), ("adaptability", .pyInt 6), ("cultural_fit", .pyInt 6)]),
     ("recommendation", .pyStr "Further Interview Required"),
     ("reasoning", .pyStr "Additional assessment needed for final determination.")]

/-- ReportGenerator._parse_report_content: slice from the first opening
brace to the last closing brace and json.loads the slice, with the basic
report on a decode error or when no opening brace exists. -/
def parse_report_content (content : String) : PyVal :=
  let json_start := pyFind content '\x7b'
  let json_end := pyRfind content '\x7d' + 1
  if json_start ≠ -1 ∧ json_end ≠ -1 then
    match jsonLoads (pySlice content json_start json_end) with
    | .ok v => v
    | .error _ => create_basic_report
  else create_basic_report

/-- ReportGenerator._add_metadata: set the interview_metadata and
report_generated_at keys on the report dict (item assignment on a
non-dict raises). -/
def add_metadata (report : PyVal) (data : ConvData) (cfg : JobConfig)
    (today isoNow : String) : Except PyExc PyVal :=
  match report with
  | .pyDict d =>
    let meta : PyVal := .pyDict
      [("position", .pyStr cfg.title),
       ("candidate_name", .pyStr (cfg.candidate_name.getD "Candidate")),
       ("interview_date", .pyStr today),
       ("questions_asked", .pyInt data.statistics.total_questions),
       ("average_score", .pyFloat data.statistics.average_score)]
    .ok (.pyDict (dictSet (dictSet d "interview_metadata" meta) "report_generated_at" (.pyStr isoNow)))
  | _ => .error .typeError

/-- ReportGenerator._create_fallback_report: the report returned when the
generation call itself raises, embedding the exception text in the
error_note field. -/
def create_fallback_report (data : ConvData) (cfg : JobConfig) (error : String) : PyVal :=
  .pyDict
    [("executive_summary", .pyStr ("Interview completed with " ++
        toString data.statistics.total_questions ++ " questions.")),
     ("overall_score", .pyFloat data.statistics.average_score),
     ("strengths", .pyList [.pyStr "Completed interview process", .pyStr "Engaged with questions"]),
     ("areas_for_improvement", .pyList [.pyStr "Detailed assessment needed"]),
     ("recommendation", .pyStr "Further Interview Required"),
     ("reasoning", .pyStr "Standard evaluation completed."),
     ("interview_metadata", .pyDict
       [("position", .pyStr cfg.title),
        ("candidate_name", .pyStr (cfg.candidate_name.getD "Candidate")),
        ("questions_asked", .pyInt data.statistics.total_questions),
        ("average_score", .pyFloat data.statistics.average_score)]),
     ("error_note", .pyStr ("Fallback report due to: " ++ error))]

/-- ReportGenerator.generate_report: build the analysis prompt (feeding
only the external call), send it, parse the returned text and append the
metadata; any exception in that block is converted to the fallback report
carrying str(e). -/
def generate_report (data : ConvData) (cfg : JobConfig) (o : GenOutcome)
    (today isoNow : String) : Except PyExc PyVal :=
  pyTry
    (do
      let content ← genCall o
      let report_content := pyStrip content
      let parsed := parse_report_content report_content
      add_metadata parsed data cfg today isoNow)
    (fun e => .ok (create_fallback_report data cfg (pyExcStr e)))

/-! ### Pure characterizations of the agent operations -/

/-- The value _evaluate_response always returns. -/
def evalValue (o : GenOutcome) : String :=
  match o with
  | .ok c =>
    match jsonLoads (pyStrip c) with
    | .ok _ => pyStrip c
    | .error _ => fallbackEvalParseStr
  | .exc _ => fallbackEvalExcStr

/-- The value _generate_next_question always returns. -/
def nextqValue (qc : Nat) (o : GenOutcome) : String :=
  match o with
  | .ok c => pyStrip c
  | .exc _ => fallbackQuestions.getD (min qc (fallbackQuestions.length - 1)) ""

lemma evaluate_response_eq (st : AgentState) (r : String) (o : GenOutcome) :
    evaluate_response st r o = .ok (evalValue o) := by
  cases o with
  | ok c =>
    cases h : jsonLoads (pyStrip c) <;>
      simp [evaluate_response, evalValue, genCall, pyTry, h, Bind.bind, Except.bind]
  | exc m => rfl

lemma generate_next_question_eq (st : AgentState) (r ev : String) (o : GenOutcome) :
    generate_next_question st r ev o = .ok (nextqValue st.question_count o) := by
  cases o <;> rfl

/-- One pure step of process_response. -/
def stepAgent (st : AgentState) (r : String) (o1 o2 : GenOutcome) : AgentState × AgentResp :=
  let evaluation := evalValue o1
  let ctx := st.interview_context ++
    [{ question := st.current_question, response := r, evaluation := evaluation }]
  let next := nextqValue st.question_count o2
  let qc := st.question_count + 1
  ({ st with interview_context := ctx, current_question := next, question_count := qc },
   { question := next, evaluation := evaluation,
     is_final := decide (st.max_questions ≤ qc), question_number := qc + 1 })

lemma process_response_eq (st : AgentState) (r : String) (o1 o2 : GenOutcome) :
    process_response st r o1 o2 = .ok (stepAgent st r o1 o2) := by
  simp only [process_response, stepAgent, evaluate_response_eq, generate_next_question_eq]
  rfl

lemma stepAgent_question_count (st : AgentState) (r : String) (o1 o2 : GenOutcome) :
    (stepAgent st r o1 o2).1.question_count = st.question_count + 1 := rfl

lemma stepAgent_max_questions (st : AgentState) (r : String) (o1 o2 : GenOutcome) :
    (stepAgent st r o1 o2).1.max_questions = st.max_questions := rfl

lemma stepAgent_is_final (st : AgentState) (r : String) (o1 o2 : GenOutcome) :
    (stepAgent st r o1 o2).2.is_final = decide (st.max_questions ≤ st.question_count + 1) := rfl

/-- The pure run of process_response over a list of calls. -/
def runPure (st : AgentState) : List (String × GenOutcome × GenOutcome) → List AgentResp
  | [] => []
  | (r, o1, o2) :: calls =>
    let p := stepAgent st r o1 o2
    p.2 :: runPure p.1 calls

lemma runAgent_eq (st : AgentState) (calls : List (String × GenOutcome × GenOutcome)) :
    runAgent st calls = .ok (runPure st calls) := by
  induction calls generalizing st with
  | nil => rfl
  | cons c calls ih =>
    obtain ⟨r, o1, o2⟩ := c
    simp only [runAgent, runPure, process_response_eq, ih]
    rfl

lemma runPure_length (st : AgentState) (calls : List (String × GenOutcome × GenOutcome)) :
    (runPure st calls).length = calls.length := by
  induction calls generalizing st with
  | nil => rfl
  | cons c calls ih =>
    obtain ⟨r, o1, o2⟩ := c
    simp [runPure, ih]

lemma runPure_is_final (st : AgentState) (calls : List (String × GenOutcome × GenOutcome))
    (k : Nat) (hk : k < (runPure st calls).length) :
    ((runPure st calls).get ⟨k, hk⟩).is_final =
      decide (st.max_questions ≤ st.question_count + k + 1) := by
  induction calls generalizing st k with
  | nil => simp [runPure] at hk
  | cons c calls ih =>
    obtain ⟨r, o1, o2⟩ := c
    cases k with
    | zero => simpa [runPure] using stepAgent_is_final st r o1 o2
    | succ k =>
      have hk2 : k < (runPure (stepAgent st r o1 o2).1 calls).length := by
        simpa [runPure] using hk
      show ((runPure (stepAgent st r o1 o2).1 calls).get ⟨k, hk2⟩).is_final = _
      rw [ih (stepAgent st r o1 o2).1 k hk2, stepAgent_question_count,
        stepAgent_max_questions, decide_eq_decide]
      omega

lemma initAgent_fields (cfg : JobConfig) (o : GenOutcome) (s : AgentState)
    (h : initAgent cfg o = .ok s) :
    s.question_count = 0 ∧ s.max_questions = get_max_questions cfg ∧
      s.interview_context = [] := by
  cases o with
  | ok c =>
    simp only [initAgent, generate_first_question, genCall, pyTry] at h
    cases h
    exact ⟨rfl, rfl, rfl⟩
  | exc m =>
    simp only [initAgent, generate_first_question, genCall, pyTry] at h
    cases h
    exact ⟨rfl, rfl, rfl⟩

/-! ### Claims -/

/-- C3: for every behavior of the generation service (raised failure,
arbitrary or malformed returned text), generating the opening question,
generating the next question, evaluating a response and synthesizing the
report never propagate an exception: each always returns a value. -/
theorem claim_c3_no_exception_escapes (cfg : JobConfig) (st : AgentState)
    (r ev : String) (o1 o2 o3 o4 : GenOutcome) (data : ConvData) (today isoNow : String) :
    (∃ v, generate_first_question cfg o1 = .ok v) ∧
    (∃ v, generate_next_question st r ev o2 = .ok v) ∧
    (∃ v, evaluate_response st r o3 = .ok v) ∧
    (∃ v, generate_report data cfg o4 today isoNow = .ok v) := by
  refine ⟨?_, ?_, ?_, ?_⟩
  · cases o1 <;> exact ⟨_, rfl⟩
  · exact ⟨_, generate_next_question_eq st r ev o2⟩
  · exact ⟨_, evaluate_response_eq st r o3⟩
  · cases o4 with
    | ok c =>
      cases h : add_metadata (parse_report_content (pyStrip c)) data cfg today isoNow with
      | ok v =>
        exact ⟨v, by simp [generate_report, pyTry, genCall, Bind.bind, Except.bind, h]⟩
      | error e =>
        exact ⟨create_fallback_report data cfg (pyExcStr e),
          by simp [generate_report, pyTry, genCall, Bind.bind, Except.bind, h]⟩
    | exc m => exact ⟨_, rfl⟩

/-- C4: for a session with maxQuestions = n, the dict returned by
process_response has is_final = false on each of the first n - 1 calls and
is_final = true on the n-th call. -/
theorem claim_c4_is_final (cfg : JobConfig) (oFirst : GenOutcome) (s0 : AgentState)
    (calls : List (String × GenOutcome × GenOutcome)) (rs : List AgentResp)
    (hInit : initAgent cfg oFirst = .ok s0) (hRun : runAgent s0 calls = .ok rs)
    (k : Nat) (hk : k < rs.length) :
    (k + 1 < get_max_questions cfg → (rs.get ⟨k, hk⟩).is_final = false) ∧
    (k + 1 = get_max_questions cfg → (rs.get ⟨k, hk⟩).is_final = true) := by
  obtain ⟨hqc, hmax, -⟩ := initAgent_fields cfg oFirst s0 hInit
  rw [runAgent_eq] at hRun
  cases hRun
  rw [runPure_is_final s0 calls k hk, hqc, hmax]
  constructor
  · intro h
    simpa using by omega
  · intro h
    simp only [decide_eq_true_eq]
    omega

/-- C5: the score trend splits the scores at index count/2 (integer
division), compares the two means against a 0.5 margin, is always stable
below two scores, and gives the four documented example results. -/
theorem claim_c5_score_trend :
    calculate_score_trend [5, 5, 8, 9] = "improving" ∧
    calculate_score_trend [9, 9, 5, 5] = "declining" ∧
    calculate_score_trend [7] = "stable" ∧
    calculate_score_trend [6, 6, 6, 6] = "stable" ∧
    (∀ s : List ℚ, s.length < 2 → calculate_score_trend s = "stable") ∧
    (∀ s : List ℚ, 2 ≤ s.length →
      calculate_score_trend s =
        (let fh := s.take (s.length / 2)
         let sh := s.drop (s.length / 2)
         if sh.sum / sh.length > fh.sum / fh.length + 1 / 2 then "improving"
         else if sh.sum / sh.length < fh.sum / fh.length - 1 / 2 then "declining"
         else "stable")) := by
  refine ⟨?_, ?_, by decide, ?_, ?_, ?_⟩
  · simp only [calculate_score_trend]
    norm_num [List.take, List.drop, List.sum_cons, List.sum_nil]
  · simp only [calculate_score_trend]
    norm_num [List.take, List.drop, List.sum_cons, List.sum_nil]
  · simp only [calculate_score_trend]
    norm_num [List.take, List.drop, List.sum_cons, List.sum_nil]
  · intro s h
    simp [calculate_score_trend, h]
  · intro s h
    have hlen : ¬ s.length < 2 := by omega
    have hfh : ¬ (s.take (s.length / 2)).isEmpty = true := by
      simp only [List.isEmpty_iff, ← List.length_eq_zero, List.length_take]
      omega
    have hsh : ¬ (s.drop (s.length / 2)).isEmpty = true := by
      simp only [List.isEmpty_iff, ← List.length_eq_zero, List.length_drop]
      omega
    simp only [calculate_score_trend, hlen, if_false, Bool.or_eq_true, hfh, hsh,
      or_self, gt_iff_lt]
    rfl

/-- C7: any two invocations of response evaluation during which the
generation service fails return the identical fallback evaluation string,
independent of the agent state (job profile, current question), the
candidate response and the failure message. -/
theorem claim_c7_fallback_deterministic (st1 st2 : AgentState) (r1 r2 e1 e2 : String) :
    evaluate_response st1 r1 (.exc e1) = evaluate_response st2 r2 (.exc e2) ∧
    evaluate_response st1 r1 (.exc e1) = .ok fallbackEvalExcStr := ⟨rfl, rfl⟩

/-- C9: the average score is the arithmetic mean of the recorded scores
rounded to one decimal ([7,8,9] gives 8.0) and is 0.0 with no recorded
scores. -/
theorem claim_c9_average_score :
    (∀ st : ConvState, st.evaluation_scores = [] → get_average_score st = 0) ∧
    (∀ st : ConvState, st.evaluation_scores ≠ [] →
      get_average_score st =
        round1 (st.evaluation_scores.sum / st.evaluation_scores.length)) ∧
    (∀ st : ConvState, st.evaluation_scores = [7, 8, 9] → get_average_score st = 8) := by
  refine ⟨?_, ?_, ?_⟩
  · intro st h
    simp [get_average_score, h]
  · intro st h
    simp [get_average_score, List.isEmpty_iff, h]
  · intro st h
    simp only [get_average_score, h]
    norm_num [round1, roundHalfEven]

/-- Witness for C4: with the Quick duration (8 questions) and eight
submitted responses, the first result is not final and the eighth is. -/
theorem claim_c4_is_final_witness :
    ((runPure
        { job_config :=
            { title := "Backend Engineer", level := "Mid", type := "Technical",
              duration := some "Quick (5-8 questions)", description := "d",
              candidate_name := none },
          question_count := 0,
          current_question :=
            "Hello! I\x27m excited to interview you for the Backend Engineer position. Can you start by telling me about your relevant experience and what interests you about this role?",
          interview_context := [],
          max_questions := 8 }
        (List.replicate 8 ("a", GenOutcome.exc "e", GenOutcome.exc "e"))).get
      ⟨0, by decide⟩).is_final = false ∧
    ((runPure
        { job_config :=
            { title := "Backend Engineer", level := "Mid", type := "Technical",
              duration := some "Quick (5-8 questions)", description := "d",
              candidate_name := none },
          question_count := 0,
          current_question :=
            "Hello! I\x27m excited to interview you for the Backend Engineer position. Can you start by telling me about your relevant experience and what interests you about this role?",
          interview_context := [],
          max_questions := 8 }
        (List.replicate 8 ("a", GenOutcome.exc "e", GenOutcome.exc "e"))).get
      ⟨7, by decide⟩).is_final = true := by
  constructor
  · exact (claim_c4_is_final _ (GenOutcome.exc "x") _ _ _ rfl (runAgent_eq _ _) 0
      (by decide)).1 (by decide)
  · exact (claim_c4_is_final _ (GenOutcome.exc "x") _ _ _ rfl (runAgent_eq _ _) 7
      (by decide)).2 (by decide)

/-- Witness for C5: the general branches of the trend theorem evaluated at
concrete score lists. -/
theorem claim_c5_score_trend_witness :
    calculate_score_trend [(3 : ℚ)] = "stable" ∧ calculate_score_trend [(3 : ℚ), 9] = "improving" := by
  constructor
  · exact claim_c5_score_trend.2.2.2.2.1 [3] (by decide)
  · rw [claim_c5_score_trend.2.2.2.2.2 [3, 9] (by decide)]
    norm_num [List.take, List.drop, List.sum_cons, List.sum_nil]

/-- Witness for C9: the mean branch evaluated at [7, 8, 9] and the empty
branch at the fresh state. -/
theorem claim_c9_average_score_witness :
    get_average_score initConv = 0 ∧
    get_average_score { initConv with evaluation_scores := [7, 8, 9] } =
      round1 (([7, 8, 9] : List ℚ).sum / ([7, 8, 9] : List ℚ).length) := by
  constructor
  · exact claim_c9_average_score.1 initConv rfl
  · exact claim_c9_average_score.2.1 { initConv with evaluation_scores := [7, 8, 9] }
      (by decide)

/-! ### Shared concrete fixtures -/

def sampleCfgQuick : JobConfig :=
  { title := "Backend Engineer", level := "Mid", type := "Technical",
    duration := some "Quick (5-8 questions)", description := "d", candidate_name := none }

def sampleAgentState : AgentState :=
  { job_config := sampleCfgQuick, question_count := 0, current_question := "q0",
    interview_context := [], max_questions := 8 }

def sampleData : ConvData := export_conversation initConv 0

/-- An agent response carrying a given evaluation string. -/
def scoreResp (ev : String) : AgentResp :=
  { question := "q", evaluation := ev, is_final := false, question_number := 1 }

def evalJson5 : String := "\x7b\"score\": 5\x7d"

/-- The field of a report dict under a key. -/
def reportField (v : PyVal) (k : String) : Option PyVal :=
  match v with
  | .pyDict d => dictGet d k
  | _ => none

/-- The four enumerated recommendation strings. -/
def recommendationStrings : List String :=
  ["Strong Hire", "Hire", "No Hire", "Further Interview Required"]

/-! ### C1 -/

def c1text : String :=
  "\x7b\"score\": 11, \"feedback\": \"ok\", \"strengths\": \"s\", \"areas_to_probe\": \"a\"\x7d"

/-- C1 counterexample: text that parses as JSON with the out-of-range
score 11 is returned verbatim by response evaluation, not replaced by
either fallback. -/
theorem claim_c1_counterexample :
    jsonLoads c1text = .ok (.pyDict
      [("score", .pyInt 11), ("feedback", .pyStr "ok"),
       ("strengths", .pyStr "s"), ("areas_to_probe", .pyStr "a")]) ∧
    ¬ (1 ≤ (11 : ℤ) ∧ (11 : ℤ) ≤ 10) ∧
    evaluate_response sampleAgentState "resp" (.ok c1text) = .ok c1text ∧
    c1text ≠ fallbackEvalParseStr ∧ c1text ≠ fallbackEvalExcStr := by
  exact ⟨rfl, by decide, rfl, by decide, by decide⟩

/-- C1 (amended): response evaluation replaces the returned text with the
fixed fallback only when the text fails to parse as JSON (or the call
raises); any text that parses is passed through verbatim, whatever its
score field holds — the score is never validated, clamped or replaced. -/
theorem claim_c1_passthrough (st : AgentState) (r c : String) :
    (∀ v, jsonLoads (pyStrip c) = .ok v → evaluate_response st r (.ok c) = .ok (pyStrip c)) ∧
    (jsonLoads (pyStrip c) = .error () → evaluate_response st r (.ok c) = .ok fallbackEvalParseStr) := by
  constructor
  · intro v h
    rw [evaluate_response_eq]
    simp [evalValue, h]
  · intro h
    rw [evaluate_response_eq]
    simp [evalValue, h]

/-- Witness for C1 (amended): the pass-through branch at the score-11
text and the fallback branch at an unparsable text. -/
theorem claim_c1_passthrough_witness :
    evaluate_response sampleAgentState "resp" (.ok c1text) = .ok (pyStrip c1text) ∧
    evaluate_response sampleAgentState "resp" (.ok "not json") = .ok fallbackEvalParseStr := by
  constructor
  · exact (claim_c1_passthrough sampleAgentState "resp" c1text).1
      (.pyDict
        [("score", .pyInt 11), ("feedback", .pyStr "ok"),
         ("strengths", .pyStr "s"), ("areas_to_probe", .pyStr "a")]) rfl
  · exact (claim_c1_passthrough sampleAgentState "resp" "not json").2 rfl

/-! ### C2 -/

/-- Fold add_exchange over a list of calls. -/
def addMany (st : ConvState) : List (String × AgentResp × String) → Except PyExc ConvState
  | [] => .ok st
  | (r, resp, ts) :: rest =>
    match add_exchange st r resp ts with
    | .ok st2 => addMany st2 rest
    | .error e => .error e

def c2calls : List (String × AgentResp × String) :=
  List.replicate 8 ("a", scoreResp evalJson5, "t")

def c2s8 : ConvState :=
  match addMany initConv c2calls with
  | .ok s => s
  | .error _ => initConv

def c2s9 : ConvState :=
  match add_exchange c2s8 "one more" (scoreResp "\x7b\"score\": 9\x7d") "t9" with
  | .ok s => s
  | .error _ => initConv

/-- C2 counterexample: a conversation that already holds maxQuestions = 8
exchanges (Quick duration) accepts a 9th add_exchange, which extends the
recorded sequence and changes the derived average. -/
theorem claim_c2_counterexample :
    addMany initConv c2calls = .ok c2s8 ∧
    c2s8.conversation_history.length = get_max_questions sampleCfgQuick ∧
    add_exchange c2s8 "one more" (scoreResp "\x7b\"score\": 9\x7d") "t9" = .ok c2s9 ∧
    c2s9.conversation_history.length = get_max_questions sampleCfgQuick + 1 ∧
    c2s9.conversation_history ≠ c2s8.conversation_history ∧
    get_average_score c2s9 ≠ get_average_score c2s8 := by
  refine ⟨rfl, rfl, rfl, rfl, ?_, ?_⟩
  · intro h
    exact absurd (congrArg List.length h) (by decide)
  · have hs8 : c2s8.evaluation_scores = [5, 5, 5, 5, 5, 5, 5, 5] := rfl
    have hs9 : c2s9.evaluation_scores = [5, 5, 5, 5, 5, 5, 5, 5, 9] := rfl
    have h8 : get_average_score c2s8 = 5 := by
      simp only [get_average_score, hs8]
      norm_num [round1, roundHalfEven]
    have h9 : get_average_score c2s9 = 27 / 5 := by
      simp only [get_average_score, hs9]
      norm_num [round1, roundHalfEven]
    rw [h8, h9]
    norm_num

/-- C2 (amended): the conversation state itself enforces no terminal
condition: every successful add_exchange call, at any exchange count,
appends one more exchange and one more score — post-completion appends
are prevented only by the UI layer, which stops submitting them. -/
theorem claim_c2_append_unconditional (st : ConvState) (r ts : String) (resp : AgentResp)
    (st2 : ConvState) (h : add_exchange st r resp ts = .ok st2) :
    st2.conversation_history.length = st.conversation_history.length + 1 ∧
    st2.evaluation_scores.length = st.evaluation_scores.length + 1 := by
  cases hq : extract_score resp.evaluation with
  | error e => simp [add_exchange, hq, Bind.bind, Except.bind] at h
  | ok q =>
    simp only [add_exchange, hq, Bind.bind, Except.bind, Except.ok.injEq] at h
    rw [← h]
    simp

def c2w1 : ConvState :=
  match add_exchange initConv "r" (scoreResp evalJson5) "t" with
  | .ok s => s
  | .error _ => initConv

/-- Witness for C2 (amended): the first append to a fresh conversation. -/
theorem claim_c2_append_unconditional_witness :
    c2w1.conversation_history.length = initConv.conversation_history.length + 1 ∧
    c2w1.evaluation_scores.length = initConv.evaluation_scores.length + 1 :=
  claim_c2_append_unconditional initConv "r" "t" (scoreResp evalJson5) c2w1 rfl

/-! ### C6 -/

def c6text : String := "\x7b\"recommendation\": \"Definitely Maybe\"\x7d"

def c6report : PyVal :=
  match generate_report sampleData sampleCfgQuick (.ok c6text) "2025-01-01" "T" with
  | .ok v => v
  | .error _ => .pyNone

/-- C6 counterexample: when the service text parses, the recommendation is
passed through unvalidated — synthesis returns a report whose
recommendation is not one of the four enumerated strings. -/
theorem claim_c6_counterexample :
    generate_report sampleData sampleCfgQuick (.ok c6text) "2025-01-01" "T" = .ok c6report ∧
    reportField c6report "recommendation" = some (.pyStr "Definitely Maybe") ∧
    "Definitely Maybe" ∉ recommendationStrings := by
  exact ⟨rfl, rfl, by decide⟩

/-- C6 (amended): the recommendation of a parsed report is whatever the
service text contained; only the fallback reports are constrained — when
the synthesis call raises, the returned fallback report has
recommendation "Further Interview Required" (one of the four enumerated
strings) and a non-empty error_note recording the cause, and the
basic report used on a parse failure also recommends
"Further Interview Required". -/
theorem claim_c6_fallback_recommendation (data : ConvData) (cfg : JobConfig)
    (e today isoNow : String) :
    generate_report data cfg (.exc e) today isoNow =
      .ok (create_fallback_report data cfg e) ∧
    reportField (create_fallback_report data cfg e) "recommendation" =
      some (.pyStr "Further Interview Required") ∧
    "Further Interview Required" ∈ recommendationStrings ∧
    reportField (create_fallback_report data cfg e) "error_note" =
      some (.pyStr ("Fallback report due to: " ++ e)) ∧
    "Fallback report due to: " ++ e ≠ "" ∧
    reportField create_basic_report "recommendation" =
      some (.pyStr "Further Interview Required") := by
  refine ⟨rfl, rfl, by decide, rfl, ?_, rfl⟩
  intro h
  have h2 := congrArg String.length h
  simp [String.length_append] at h2
  exact absurd h2.1 (by decide)

/-! ### C8 -/

/-- C8: whenever next-question generation falls back because the service
call raised, the returned question is the fallback list entry at index
min(question_count, listLength - 1); consecutive indices select distinct
entries until the list is exhausted, after which the last entry repeats. -/
theorem claim_c8_fallback_question (st : AgentState) (r ev e : String) :
    generate_next_question st r ev (.exc e) =
      .ok (fallbackQuestions.getD (min st.question_count (fallbackQuestions.length - 1)) "") ∧
    (∀ i : Nat, i < fallbackQuestions.length - 1 →
      fallbackQuestions.getD (min i (fallbackQuestions.length - 1)) "" ≠
        fallbackQuestions.getD (min (i + 1) (fallbackQuestions.length - 1)) "") ∧
    (∀ i : Nat, fallbackQuestions.length - 1 ≤ i →
      fallbackQuestions.getD (min i (fallbackQuestions.length - 1)) "" =
        fallbackQuestions.getD (fallbackQuestions.length - 1) "") := by
  refine ⟨rfl, ?_, ?_⟩
  · intro i hi
    have hi4 : i < 4 := by simpa [fallbackQuestions] using hi
    interval_cases i <;> decide
  · intro i hi
    rw [Nat.min_eq_right hi]

/-- Witness for C8: the fallback question of a fresh agent, and the
distinctness of the first two fallback entries. -/
theorem claim_c8_fallback_question_witness :
    generate_next_question sampleAgentState "r" "ev" (.exc "boom") =
      .ok (fallbackQuestions.getD
        (min sampleAgentState.question_count (fallbackQuestions.length - 1)) "") ∧
    fallbackQuestions.getD (min 0 (fallbackQuestions.length - 1)) "" ≠
      fallbackQuestions.getD (min 1 (fallbackQuestions.length - 1)) "" := by
  have h := claim_c8_fallback_question sampleAgentState "r" "ev" "boom"
  exact ⟨h.1, h.2.1 0 (by decide)⟩

/-! ### C10 -/

/-- C10 counterexample: an evaluation string that parses to a JSON array
makes score extraction raise an uncaught AttributeError instead of
returning 0.0, and the error propagates out of add_exchange — extraction
is not total. -/
theorem claim_c10_counterexample :
    jsonLoads "[]" = .ok (.pyList []) ∧
    extract_score "[]" = .error .attributeError ∧
    add_exchange initConv "resp" (scoreResp "[]") "t" = .error .attributeError := by
  exact ⟨rfl, rfl, rfl⟩

/-- C10 (amended): for an evaluation string that fails to parse as JSON,
or parses to a JSON object whose score field is missing, None, or an
unconvertible string, the extracted score is 0.0 and add_exchange records
it in the score list and in the exchange record (so the derived statistics
can contain 0.0, a value outside the declared range [1,10]); but for a
string that parses to a non-object JSON value, the .get lookup raises an
uncaught AttributeError, so extraction is not total. -/
theorem claim_c10_extract_score (s : String) (st : ConvState) (r ts : String)
    (resp : AgentResp) :
    (jsonLoads s = .error () → extract_score s = .ok 0) ∧
    (∀ d, jsonLoads s = .ok (.pyDict d) → dictGet d "score" = none →
      extract_score s = .ok 0) ∧
    (∀ d, jsonLoads s = .ok (.pyDict d) → dictGet d "score" = some .pyNone →
      extract_score s = .ok 0) ∧
    (∀ d w, jsonLoads s = .ok (.pyDict d) → dictGet d "score" = some (.pyStr w) →
      pyParseFloat w = none → extract_score s = .ok 0) ∧
    (∀ v, jsonLoads s = .ok v → v.isObj = false →
      extract_score s = .error .attributeError) ∧
    (∀ q st2, extract_score resp.evaluation = .ok q → add_exchange st r resp ts = .ok st2 →
      st2.evaluation_scores = st.evaluation_scores ++ [q] ∧
      st2.conversation_history.map Exchange.score =
        st.conversation_history.map Exchange.score ++ [q]) ∧
    ¬ (1 ≤ (0 : ℚ) ∧ (0 : ℚ) ≤ 10) := by
  refine ⟨?_, ?_, ?_, ?_, ?_, ?_, by norm_num⟩
  · intro h
    simp [extract_score, h]
  · intro d h hnone
    simp [extract_score, h, hnone, pyFloatConv]
  · intro d h hv
    simp [extract_score, h, hv]
  · intro d w h hv hw
    simp [extract_score, h, hv, pyFloatConv, hw]
  · intro v h hobj
    cases v <;> simp_all [extract_score, PyVal.isObj]
  · intro q st2 hq hadd
    simp only [add_exchange, hq, Bind.bind, Except.bind, Except.ok.injEq] at hadd
    rw [← hadd]
    simp

/-- Witness for C10 (amended): each branch at a concrete evaluation
string, and the recording of the extracted score on a fresh state. -/
theorem claim_c10_extract_score_witness :
    extract_score "not json" = .ok 0 ∧
    extract_score "\x7b\"a\": 1\x7d" = .ok 0 ∧
    extract_score "\x7b\"score\": null\x7d" = .ok 0 ∧
    extract_score "\x7b\"score\": \"high\"\x7d" = .ok 0 ∧
    extract_score "3" = .error .attributeError ∧
    c2w1.evaluation_scores = initConv.evaluation_scores ++ [(5 : ℚ)] := by
  refine ⟨?_, ?_, ?_, ?_, ?_, ?_⟩
  · exact (claim_c10_extract_score "not json" initConv "r" "t" (scoreResp evalJson5)).1 rfl
  · exact (claim_c10_extract_score "\x7b\"a\": 1\x7d" initConv "r" "t"
      (scoreResp evalJson5)).2.1 [("a", .pyInt 1)] rfl rfl
  · exact (claim_c10_extract_score "\x7b\"score\": null\x7d" initConv "r" "t"
      (scoreResp evalJson5)).2.2.1 [("score", .pyNone)] rfl rfl
  · exact (claim_c10_extract_score "\x7b\"score\": \"high\"\x7d" initConv "r" "t"
      (scoreResp evalJson5)).2.2.2.1 [("score", .pyStr "high")] "high" rfl rfl rfl
  · exact (claim_c10_extract_score "3" initConv "r" "t"
      (scoreResp evalJson5)).2.2.2.2.1 (.pyInt 3) rfl rfl
  · exact ((claim_c10_extract_score "x" initConv "r" "t"
      (scoreResp evalJson5)).2.2.2.2.2.1 5 c2w1 rfl rfl).1
